import Mathlib

/-!
Shallow embedding of the anomaly-detection core of the location-tracker
repository (Django app `location_tracker`), for checking the specification
claims against the code.

Embedded source files:
* `location_tracker/feature_engineering.py` — bearing arithmetic, the
  sliding-window feature extractor, and the rule-based fallback scorer;
* `location_tracker/redis_utils.py` — the bounded per-subject window
  (`add_location_point`: RPUSH, LTRIM -30 -1, LRANGE 0 -1);
* `location_tracker/utils.py` — `calculate_safety_score_by_user_id`;
* `location_tracker/views.py` — `EndJourneyView.post` and
  `ResetAnomaliesView.post` (their database effects);
* `location_tracker/models.py` — the `AnomalyAlert` row type.

Real numbers of the source (float) are modelled as rationals; the
transcendental kernels (haversine distance, initial bearing, numpy's square
root inside `np.std`) are abstracted into a `GeoKernel` parameter, since every
claim treated here quantifies over their outputs.  Wall-clock time is passed
explicitly: `now` in epoch seconds and the hour in the fixed reference
timezone (Asia/Kolkata) as a separate argument.
-/

namespace DemoSIH

/-- From feature_engineering.py, `bearing_difference(bearing1, bearing2)`:
absolute difference of two bearings, folded into [0, 180]. -/
def bearing_difference (bearing1 bearing2 : ℚ) : ℚ :=
  let diff := |bearing2 - bearing1|
  if diff > 180 then 360 - diff else diff

/-- A raw timestamp string of a location sample.  `key` stands for the
lexicographic rank of the raw string (the sort key used by
`sorted(location_window, key=timestamp)`); `parsed` is the
result of `datetime.fromisoformat` in epoch seconds, `none` when parsing
raises `ValueError`/`KeyError`.  For uniformly formatted ISO-8601 strings
the lexicographic order agrees with chronological order. -/
structure Timestamp where
  key : ℚ
  parsed : Option ℚ
deriving DecidableEq

/-- One entry of the per-subject sliding window (a JSON dict with latitude,
longitude and timestamp fields in the source). -/
structure LocationPoint where
  latitude : ℚ
  longitude : ℚ
  timestamp : Timestamp
deriving DecidableEq

/-- The numeric kernels of feature_engineering.py that compute transcendental
functions: `haversine_distance`, `calculate_bearing`, and the square root
taken by `np.std`.  They are abstracted as parameters; every theorem below
holds for all kernels. -/
structure GeoKernel where
  dist : LocationPoint → LocationPoint → ℚ
  bear : LocationPoint → LocationPoint → ℚ
  sqrtFn : ℚ → ℚ

/-- numpy `np.mean` on a list of rationals. -/
def npMean (l : List ℚ) : ℚ := l.sum / (l.length : ℚ)

/-- numpy `np.std` (population standard deviation), with the square root
abstracted into the kernel. -/
def npStd (K : GeoKernel) (l : List ℚ) : ℚ :=
  K.sqrtFn (npMean (l.map (fun x => (x - npMean l) ^ 2)))

/-- numpy `np.max` on a nonempty list (0 on the empty list; the source guards
every use with a nonemptiness check). -/
def npMax : List ℚ → ℚ
  | [] => 0
  | x :: xs => xs.foldl max x

/-- numpy `np.min` on a nonempty list (0 on the empty list; the source guards
every use with a nonemptiness check). -/
def npMin : List ℚ → ℚ
  | [] => 0
  | x :: xs => xs.foldl min x

/-- Comparison used by `sorted(location_window, key=timestamp)`:
order points by the raw timestamp string. -/
def tsLe (a b : LocationPoint) : Prop := a.timestamp.key ≤ b.timestamp.key

instance : DecidableRel tsLe :=
  fun a b => inferInstanceAs (Decidable (a.timestamp.key ≤ b.timestamp.key))

/-- Step 1 of `extract_features`: sort the window by timestamp ascending.
Python `sorted` is stable, as is insertion sort. -/
def sorted_window (w : List LocationPoint) : List LocationPoint :=
  List.insertionSort tsLe w

/-- The point-to-point loop of `extract_features` (lines 78-108): for each
consecutive pair of the sorted window, parse both timestamps (skipping the
pair when parsing raises), skip when `time_diff <= 0`, and otherwise append
one speed sample `distance / time_diff` and one bearing sample.  Returns
(speeds, bearings) in loop order. -/
def speedsBearings (K : GeoKernel) : List LocationPoint → List ℚ × List ℚ
  | [] => ([], [])
  | [_] => ([], [])
  | p :: q :: rest =>
    let tl := speedsBearings K (q :: rest)
    match p.timestamp.parsed, q.timestamp.parsed with
    | some t1, some t2 =>
      if t2 - t1 ≤ 0 then tl
      else (K.dist p q / (t2 - t1) :: tl.1, K.bear p q :: tl.2)
    | _, _ => tl

/-- Bearing-change series (lines 114-117): `bearing_difference` of each pair
of consecutive bearings. -/
def bearing_changes (bearings : List ℚ) : List ℚ :=
  List.zipWith bearing_difference bearings bearings.tail

/-- Acceleration series (lines 120-125): consecutive speed differences
divided by the fixed nominal interval `time_diff = 10.0` seconds. -/
def accelerations (speeds : List ℚ) : List ℚ :=
  List.zipWith (fun s1 s2 => (s2 - s1) / 10) speeds speeds.tail

/-- The 14-element feature vector assembled by `extract_features`
(lines 128-150), with the source's field order. -/
structure FeatureVec where
  speed_mean : ℚ
  speed_std : ℚ
  speed_max : ℚ
  speed_min : ℚ
  bearing_change_mean : ℚ
  bearing_change_std : ℚ
  bearing_change_max : ℚ
  acceleration_mean : ℚ
  acceleration_std : ℚ
  acceleration_max : ℚ
  acceleration_min : ℚ
  point_count : ℚ
  current_speed : ℚ
  total_acceleration_magnitude : ℚ
deriving DecidableEq

/-- `LocationFeatureEngineer.extract_features`: `None` on a window of fewer
than 2 points, otherwise sort, run the pair loop, return `None` when no speed
sample survived, else assemble the statistics with the source's emptiness and
length guards (`np.std` only when the series has more than one element,
`speeds[-1]` as current speed, sum of absolute accelerations as total
magnitude, `len(sorted_window)` as point count). -/
def extract_features (K : GeoKernel) (location_window : List LocationPoint) :
    Option FeatureVec :=
  if location_window.length < 2 then none
  else
    let sw := sorted_window location_window
    let sb := speedsBearings K sw
    let speeds := sb.1
    let bearings := sb.2
    if speeds = [] then none
    else
      let bcs := bearing_changes bearings
      let accs := accelerations speeds
      some
        { speed_mean := if speeds = [] then 0 else npMean speeds
          speed_std := if 1 < speeds.length then npStd K speeds else 0
          speed_max := if speeds = [] then 0 else npMax speeds
          speed_min := if speeds = [] then 0 else npMin speeds
          bearing_change_mean := if bcs = [] then 0 else npMean bcs
          bearing_change_std := if 1 < bcs.length then npStd K bcs else 0
          bearing_change_max := if bcs = [] then 0 else npMax bcs
          acceleration_mean := if accs = [] then 0 else npMean accs
          acceleration_std := if 1 < accs.length then npStd K accs else 0
          acceleration_max := if accs = [] then 0 else npMax accs
          acceleration_min := if accs = [] then 0 else npMin accs
          point_count := (sw.length : ℚ)
          current_speed := speeds.getLastD 0
          total_acceleration_magnitude :=
            if accs = [] then 0 else (accs.map (fun acc => |acc|)).sum }

/-- `LocationFeatureEngineer.is_anomalous_behavior` (lines 154-191): guard for
absent features, then count the four rule indicators exactly as the source
increments `anomaly_indicators`, and return
`(anomaly_indicators >= 2, anomaly_indicators / 4.0)`.  The source's unused
`threshold` parameter is dropped. -/
def is_anomalous_behavior (features : Option FeatureVec) : Bool × ℚ :=
  match features with
  | none => (false, 0)
  | some f =>
    let speed_mean := f.speed_mean
    let speed_max := f.speed_max
    let bearing_change_max := f.bearing_change_max
    let acceleration_max := f.acceleration_max
    let c0 : Nat := 0
    let c1 := if speed_max > 50 then c0 + 1 else c0
    let c2 := if bearing_change_max > 120 then c1 + 1 else c1
    let c3 := if |acceleration_max| > 10 then c2 + 1 else c2
    let c4 := if speed_mean < 1 ∧ bearing_change_max > 90 then c3 + 1 else c3
    (decide (2 ≤ c4), (c4 : ℚ) / 4)

/-- The four fallback indicators exactly as the specification enumerates them
(spec section 4.4): this is the spec-side count, to be compared with the
source-side `is_anomalous_behavior`. -/
def specIndicatorCount (f : FeatureVec) : Nat :=
  (if f.speed_max > 50 then 1 else 0) +
  (if f.bearing_change_max > 120 then 1 else 0) +
  (if |f.acceleration_max| > 10 then 1 else 0) +
  (if f.speed_mean < 1 ∧ f.bearing_change_max > 90 then 1 else 0)

/-- Whether the pair loop of `extract_features` skips the consecutive pair
(p, q): a timestamp that fails to parse on either end, or a non-positive time
delta. -/
def pairSkipped (p q : LocationPoint) : Bool :=
  match p.timestamp.parsed, q.timestamp.parsed with
  | some t1, some t2 => decide (t2 - t1 ≤ 0)
  | _, _ => true

/-- Consecutive pairs of a list, in order. -/
def consecPairs (l : List α) : List (α × α) := List.zip l l.tail

/-- `RedisClient.add_location_point` (redis_utils.py lines 43-55): RPUSH the
new point, LTRIM the key to its last 30 entries, LRANGE the whole list.  The
store maps each Redis key (subject identifier) to its list; a missing key
reads as the empty list, as in Redis.  Returns the updated store and the
window returned to the caller. -/
def add_location_point (store : String → List α) (user_id : String) (x : α) :
    (String → List α) × List α :=
  let w := store user_id ++ [x]
  let w2 := w.drop (w.length - 30)
  (fun k => if k = user_id then w2 else store k, w2)

/-- The empty Redis store: every key reads as the empty list. -/
def emptyStore : String → List α := fun _ => []

/-- Iterated appends of a sequence of samples for one subject. -/
def appendAll (store : String → List α) (user_id : String) :
    List α → (String → List α)
  | [] => store
  | x :: xs => appendAll (add_location_point store user_id x).1 user_id xs

/-- A Django auth `User` row (only the columns this app touches: primary key
and username). -/
structure DjangoUser where
  pk : Nat
  username : String
deriving DecidableEq

/-- The `AnomalyAlert` model (models.py): the user foreign key is stored in
column `user_id` and holds the Django `User` primary key.  `timestamp` is in
epoch seconds. -/
structure AnomalyAlert where
  user_id : Nat
  latitude : ℚ
  longitude : ℚ
  timestamp : ℚ
  anomaly_score : ℚ
  is_resolved : Bool
  resolution_notes : Option String
deriving DecidableEq

/-- The relational state the views read and write: the auth user table and
the anomaly-alert table. -/
structure DB where
  users : List DjangoUser
  alerts : List AnomalyAlert
deriving DecidableEq

/-- `User.objects.get(username=...)`: the unique user row with the given
username (usernames are unique in Django's auth table), `none` when
`User.DoesNotExist` is raised. -/
def findUser (db : DB) (username : String) : Option DjangoUser :=
  db.users.find? (fun u => u.username == username)

/-- The recent-anomaly count of utils.py lines 62-63:
`AnomalyAlert.objects.filter(user=user, timestamp__gte=now - 1 day).count()`.
The lower bound is inclusive (`__gte`); one day is 86400 seconds. -/
def recentCount (db : DB) (user : DjangoUser) (now : ℚ) : Nat :=
  (db.alerts.filter
    (fun a => a.user_id == user.pk && decide (now - 86400 ≤ a.timestamp))).length

/-- The flat night penalty of utils.py lines 69-75: 10 points when the hour
in Asia/Kolkata is at least 22 or below 5, else 0. -/
def night_penalty (hourIST : Nat) : Int :=
  if 22 ≤ hourIST ∨ hourIST < 5 then 10 else 0

/-- The clamp formula as the specification states it (spec section 4.5):
`clamp(100 - 15 n - nightPenalty, 0, 100)`. -/
def scoreFormula (n : Nat) (hourIST : Nat) : Int :=
  max 0 (min 100 (100 - 15 * (n : Int) - night_penalty hourIST))

/-- `calculate_safety_score_by_user_id` (utils.py lines 42-89): look up the
user named `user_<user_id>`; on `User.DoesNotExist` return the base score 100
with the single factor string `No tracking history available`; otherwise
apply the 15-points-per-recent-anomaly penalty (with its factor string when
positive), the night penalty (with its factor string when applied), and clamp
the result to [0, 100].  `now` is `timezone.now()` in epoch seconds and
`hourIST` is `datetime.now(Asia/Kolkata).hour`. -/
def calculate_safety_score_by_user_id (db : DB) (user_id : String) (now : ℚ)
    (hourIST : Nat) : Int × List String :=
  match findUser db ("user_" ++ user_id) with
  | some user =>
    let recent_anomalies := recentCount db user now
    let anomaly_penalty : Int := (recent_anomalies : Int) * 15
    let factors1 : List String :=
      if 0 < anomaly_penalty then
        ["Detected " ++ toString recent_anomalies ++ " recent movement anomalies"]
      else []
    let time_penalty : Int := night_penalty hourIST
    let factors2 : List String :=
      if 22 ≤ hourIST ∨ hourIST < 5 then
        factors1 ++ ["Traveling during late night hours"]
      else factors1
    let final_score : Int := max 0 (min 100 (100 - anomaly_penalty - time_penalty))
    (final_score, factors2)
  | none => (100, ["No tracking history available"])

/-- The anomaly-clearing block of `EndJourneyView.post` (views.py lines
127-135 and its copy at lines 150-161): look up the user named
`user_<user_id>` and delete all of that user's `AnomalyAlert` rows, reporting
the number deleted; on `User.DoesNotExist` delete nothing and report 0. -/
def clear_user_alerts (db : DB) (user_id : String) : DB × Nat :=
  match findUser db ("user_" ++ user_id) with
  | some user =>
    (⟨db.users, db.alerts.filter (fun a => !(a.user_id == user.pk))⟩,
      (db.alerts.filter (fun a => a.user_id == user.pk)).length)
  | none => (db, 0)

/-- `EndJourneyView.post` (views.py lines 105-171), restricted to its
database effect.  `redisOk` tells whether `redis_client.end_journey`
succeeds; when it raises, the `except` branch repeats the anomaly-clearing
block, so the deletion happens on both paths.  The Redis key deletions
themselves are outside the claims and are not modelled.  Returns the new
database state and the `anomalies_cleared` count reported in the response. -/
def end_journey_post (redisOk : Bool) (db : DB) (user_id : String) : DB × Nat :=
  if redisOk then clear_user_alerts db user_id
  else clear_user_alerts db user_id

/-- Python's `int(...)` coercion that Django applies to a value filtered
against an integer foreign-key column: an all-digit string parses to the
number, anything else raises `ValueError` (signs and surrounding whitespace,
which no caller in this repository produces, are not modelled). -/
def pyIntOfString (s : String) : Option Nat :=
  if s.toList.isEmpty || !(s.toList.all Char.isDigit) then none
  else some (s.toList.foldl (fun n c => n * 10 + (c.toNat - 48)) 0)

/-- `ResetAnomaliesView.post` (views.py lines 329-347):
`AnomalyAlert.objects.filter(user_id=<request value>).delete()`.  The filter
value is compared against the user foreign-key column, so Django coerces the
raw request value with `int(...)`; a non-numeric value raises `ValueError`
(an unhandled 500, modelled as `none`).  Returns the new database state and
the deleted count reported in the response. -/
def reset_anomalies_post (db : DB) (user_id : String) : Option (DB × Nat) :=
  match pyIntOfString user_id with
  | none => none
  | some pk =>
    some (⟨db.users, db.alerts.filter (fun a => !(a.user_id == pk))⟩,
      (db.alerts.filter (fun a => a.user_id == pk)).length)

/-- The anomaly records belonging to tracking subject `user_id`: those
attached to the Django user named `user_<user_id>`, the keying used by
`TrackLocationView.post` (views.py lines 213-225) when it creates alerts. -/
def subjectAlerts (db : DB) (user_id : String) : List AnomalyAlert :=
  match findUser db ("user_" ++ user_id) with
  | some user => db.alerts.filter (fun a => a.user_id == user.pk)
  | none => []

/-- A kernel whose distance, bearing and square root are constantly zero,
used to instantiate kernel-generic theorems on concrete windows. -/
def zeroKernel : GeoKernel := ⟨fun _ _ => 0, fun _ _ => 0, fun _ => 0⟩

/-- A kernel with constant distance 100 (bearing and square root zero), used
to produce a window with two nonzero speed samples. -/
def distKernel : GeoKernel := ⟨fun _ _ => 100, fun _ _ => 0, fun _ => 0⟩

/-- A database with no users and no alerts. -/
def emptyDB : DB := ⟨[], []⟩

/-- A database holding tracking subject 7 (user row pk 1, username user_7)
with one anomaly alert at epoch second 999. -/
def dbW : DB := ⟨[⟨1, "user_7"⟩], [⟨1, 0, 0, 999, 1, false, none⟩]⟩

/-- The user row of `dbW`. -/
def uW : DjangoUser := ⟨1, "user_7"⟩

/-- A database holding tracking subject 3 (user row pk 1, username user_3)
with one anomaly alert at epoch second 999. -/
def db6 : DB := ⟨[⟨1, "user_3"⟩], [⟨1, 0, 0, 999, 1, false, none⟩]⟩

/-- A database where tracking subject 1 is backed by the user row with
primary key 2 (username user_1) and owns one anomaly alert. -/
def db7 : DB := ⟨[⟨2, "user_1"⟩], [⟨2, 0, 0, 500, 1, false, none⟩]⟩

/-- A feature vector with max speed 60, max bearing-change 130 and
additionally max acceleration 20 (so a third indicator fires). -/
def fvC3 : FeatureVec := ⟨5, 0, 60, 0, 0, 0, 130, 0, 0, 20, 0, 3, 5, 20⟩

/-- A feature vector with max speed 60 and max bearing-change 130 whose other
components keep the remaining two indicators quiet. -/
def fvC3w : FeatureVec := ⟨5, 0, 60, 0, 0, 0, 130, 0, 0, 2, 0, 3, 5, 2⟩

/-- A sample at rank/instant 10. -/
def pLate : LocationPoint := ⟨0, 0, ⟨10, some 10⟩⟩

/-- A sample at rank/instant 5, i.e. earlier than `pLate`. -/
def pEarly : LocationPoint := ⟨1, 1, ⟨5, some 5⟩⟩

/-- Three samples at instants 0, 5 and 10. -/
def pt0 : LocationPoint := ⟨0, 0, ⟨0, some 0⟩⟩

/-- Second sample of the three-point window. -/
def pt1 : LocationPoint := ⟨0, 1, ⟨5, some 5⟩⟩

/-- Third sample of the three-point window. -/
def pt2 : LocationPoint := ⟨0, 2, ⟨10, some 10⟩⟩

/-- A three-point window with 5-second gaps. -/
def w3 : List LocationPoint := [pt0, pt1, pt2]

/-- The feature vector `extract_features distKernel w3` evaluates to: two
speed samples of 100 / 5 = 20, one zero bearing change, one zero
acceleration. -/
def fv3 : FeatureVec := ⟨20, 0, 20, 20, 0, 0, 0, 0, 0, 0, 0, 3, 20, 0⟩

/-- C10: when the fallback scorer is handed an absent feature vector it
returns (false, 0.0) rather than raising; no anomaly verdict is produced
from absent features. -/
theorem absent_features_default : is_anomalous_behavior none = (false, 0) := rfl

/-- C8 (amended): for a subject identifier with no tracking history at all
(no user row named user_<id>), the safety-score computation returns exactly
score 100 with the single factor string `No tracking history available`
(capitalized as in the source) instead of raising a not-found error. -/
theorem no_history_default (db : DB) (uid : String) (now : ℚ) (hourIST : Nat)
    (h : findUser db ("user_" ++ uid) = none) :
    calculate_safety_score_by_user_id db uid now hourIST
      = (100, ["No tracking history available"]) := by
  simp only [calculate_safety_score_by_user_id, h]

/-- Witness for `no_history_default` at the empty database. -/
theorem no_history_default_witness :
    calculate_safety_score_by_user_id emptyDB "9" 0 12
      = (100, ["No tracking history available"]) :=
  no_history_default emptyDB "9" 0 12 (by decide)

/-- C8 counterexample: the factor string the code returns is capitalized
`No tracking history available`, so the claimed exact output with the
lowercase factor string is not what the computation returns. -/
theorem no_history_factor_case :
    calculate_safety_score_by_user_id emptyDB "9" 0 12
      = (100, ["No tracking history available"])
    ∧ (calculate_safety_score_by_user_id emptyDB "9" 0 12).2
        ≠ ["no tracking history available"] := by decide

/-- C1 (amended): for every subject with tracking history (a user row named
user_<id> exists) holding n recent anomaly records, the safety score equals
clamp(100 - 15 n - nightPenalty, 0, 100); the clamp formula is monotonically
non-increasing in n, and the returned score is an integer in [0, 100]. -/
theorem safety_score_formula (db : DB) (uid : String) (now : ℚ) (hourIST : Nat)
    (u : DjangoUser) (h : findUser db ("user_" ++ uid) = some u) :
    (calculate_safety_score_by_user_id db uid now hourIST).1
      = scoreFormula (recentCount db u now) hourIST
    ∧ (∀ m k : Nat, m ≤ k → scoreFormula k hourIST ≤ scoreFormula m hourIST)
    ∧ 0 ≤ (calculate_safety_score_by_user_id db uid now hourIST).1
    ∧ (calculate_safety_score_by_user_id db uid now hourIST).1 ≤ 100 := by
  have hcalc : (calculate_safety_score_by_user_id db uid now hourIST).1
      = scoreFormula (recentCount db u now) hourIST := by
    simp only [calculate_safety_score_by_user_id, h, scoreFormula, night_penalty]
    by_cases hh : 22 ≤ hourIST ∨ hourIST < 5 <;> simp only [hh] <;> simp <;> omega
  refine ⟨hcalc, ?_, ?_, ?_⟩
  · intro m k hmk
    simp only [scoreFormula, night_penalty]
    by_cases hh : 22 ≤ hourIST ∨ hourIST < 5 <;> simp only [hh] <;> simp <;> omega
  · rw [hcalc]
    simp only [scoreFormula, night_penalty]
    by_cases hh : 22 ≤ hourIST ∨ hourIST < 5
    · simp only [if_pos hh]; omega
    · simp only [if_neg hh]; omega
  · rw [hcalc]
    simp only [scoreFormula, night_penalty]
    by_cases hh : 22 ≤ hourIST ∨ hourIST < 5
    · simp only [if_pos hh]; omega
    · simp only [if_neg hh]; omega

/-- Witness for `safety_score_formula` on a database with one recent
anomaly, queried at noon. -/
theorem safety_score_formula_witness :
    (calculate_safety_score_by_user_id dbW "7" 1000 12).1
      = scoreFormula (recentCount dbW uW 1000) 12
    ∧ scoreFormula 1 12 ≤ scoreFormula 0 12
    ∧ 0 ≤ (calculate_safety_score_by_user_id dbW "7" 1000 12).1
    ∧ (calculate_safety_score_by_user_id dbW "7" 1000 12).1 ≤ 100 := by
  have h := safety_score_formula dbW "7" 1000 12 uW (by decide)
  exact ⟨h.1, h.2.1 0 1 (by decide), h.2.2.1, h.2.2.2⟩

/-- C1 counterexample: a never-seen subject has 0 recent anomaly records, yet
at hour 23 the computation returns 100 (the no-history branch) while the
claimed clamp formula with n = 0 gives 90. -/
theorem safety_score_unseen_subject_night :
    subjectAlerts emptyDB "9" = []
    ∧ (calculate_safety_score_by_user_id emptyDB "9" 0 23).1 = 100
    ∧ scoreFormula 0 23 = 90 := by decide

/-- C3 (amended): the fallback scorer counts exactly the four indicators the
spec enumerates and returns (count >= 2, count / 4); any feature vector with
max speed 60 and max bearing-change 130 is flagged anomalous, and its
confidence is 0.5 provided the other two indicators stay quiet (that is,
the absolute max acceleration is at most 10 and the mean speed is at
least 1). -/
theorem fallback_scorer_rules (f : FeatureVec) :
    is_anomalous_behavior (some f)
      = (decide (2 ≤ specIndicatorCount f), (specIndicatorCount f : ℚ) / 4)
    ∧ (f.speed_max = 60 → f.bearing_change_max = 130 →
        ((is_anomalous_behavior (some f)).1 = true
          ∧ (|f.acceleration_max| ≤ 10 → 1 ≤ f.speed_mean →
              (is_anomalous_behavior (some f)).2 = 1 / 2))) := by
  have hmain : is_anomalous_behavior (some f)
      = (decide (2 ≤ specIndicatorCount f), (specIndicatorCount f : ℚ) / 4) := by
    simp only [is_anomalous_behavior, specIndicatorCount]
    split_ifs <;> rfl
  refine ⟨hmain, fun h60 h130 => ⟨?_, fun hacc hmean => ?_⟩⟩
  · rw [hmain]
    have h2 : 2 ≤ specIndicatorCount f := by
      simp only [specIndicatorCount, h60, h130]
      rw [if_pos (by norm_num), if_pos (by norm_num)]
      split_ifs <;> omega
    simpa using h2
  · rw [hmain]
    have hc : specIndicatorCount f = 2 := by
      simp only [specIndicatorCount, h60, h130]
      rw [if_pos (by norm_num), if_pos (by norm_num),
        if_neg (not_lt.mpr hacc),
        if_neg (fun hx => absurd hx.1 (not_lt.mpr hmean))]
    rw [hc]
    norm_num

/-- Witness for `fallback_scorer_rules` on a vector with max speed 60, max
bearing-change 130, small acceleration and mean speed 5. -/
theorem fallback_scorer_rules_witness :
    is_anomalous_behavior (some fvC3w)
      = (decide (2 ≤ specIndicatorCount fvC3w), (specIndicatorCount fvC3w : ℚ) / 4)
    ∧ (is_anomalous_behavior (some fvC3w)).1 = true
    ∧ (is_anomalous_behavior (some fvC3w)).2 = 1 / 2 := by
  have h := fallback_scorer_rules fvC3w
  have h2 := h.2 (by decide) (by decide)
  exact ⟨h.1, h2.1, h2.2 (by decide) (by decide)⟩

/-- C3 counterexample: a feature vector with max speed 60 and max
bearing-change 130 whose max acceleration is 20 triggers a third indicator,
so the scorer returns confidence 3/4, not the claimed 0.5 (the anomaly flag
is still true). -/
theorem fallback_scorer_overcount :
    fvC3.speed_max = 60 ∧ fvC3.bearing_change_max = 130
    ∧ is_anomalous_behavior (some fvC3) = (true, 3 / 4)
    ∧ (is_anomalous_behavior (some fvC3)).2 ≠ 1 / 2 := by
  norm_num [is_anomalous_behavior, fvC3]

/-- C9: the bearing difference is within [0, 180] for bearings in [0, 360),
equals the wrapped angular distance min(d, 360 - d) for d the plain absolute
difference, and maps the pair (350, 10) across the 0/360 boundary to 20. -/
theorem bearing_difference_range (x y : ℚ)
    (hx0 : 0 ≤ x) (hx : x < 360) (hy0 : 0 ≤ y) (hy : y < 360) :
    0 ≤ bearing_difference x y ∧ bearing_difference x y ≤ 180
    ∧ bearing_difference x y = min |x - y| (360 - |x - y|)
    ∧ bearing_difference 350 10 = 20 := by
  have h4 : bearing_difference 350 10 = 20 := by
    norm_num [bearing_difference]
  have habs : |y - x| < 360 := by
    rw [abs_lt]
    constructor <;> linarith
  have hnn : (0 : ℚ) ≤ |y - x| := abs_nonneg _
  have hcomm : |y - x| = |x - y| := abs_sub_comm y x
  refine ⟨?_, ?_, ?_, h4⟩ <;> simp only [bearing_difference]
  · split_ifs with h
    · linarith
    · exact hnn
  · split_ifs with h
    · linarith
    · linarith
  · rw [hcomm] at habs hnn ⊢
    split_ifs with h
    · exact (min_eq_right (by linarith)).symm
    · rw [not_lt] at h
      exact (min_eq_left (by linarith)).symm

/-- Witness for `bearing_difference_range` at the boundary-wrapping pair
(350, 10). -/
theorem bearing_difference_range_witness :
    0 ≤ bearing_difference 350 10 ∧ bearing_difference 350 10 ≤ 180
    ∧ bearing_difference 350 10 = min |(350 : ℚ) - 10| (360 - |(350 : ℚ) - 10|)
    ∧ bearing_difference 350 10 = 20 :=
  bearing_difference_range 350 10 (by norm_num) (by norm_num) (by norm_num)
    (by norm_num)

/-- Appending never touches the window of another subject. -/
theorem appendAll_apply_ne {α : Type} (uid k : String) (hk : k ≠ uid)
    (xs : List α) : ∀ store : String → List α, appendAll store uid xs k = store k := by
  induction xs with
  | nil => intro store; rfl
  | cons x xs ih =>
    intro store
    show appendAll (add_location_point store uid x).1 uid xs k = store k
    rw [ih]
    simp [add_location_point, hk]

/-- Keeping the last 30 entries of the concatenation of two lists can be done
by first keeping the last 30 entries of the left part. -/
theorem drop_last_append {α : Type} (a b : List α) :
    (a.drop (a.length - 30) ++ b).drop
        ((a.length - (a.length - 30)) + b.length - 30)
      = (a ++ b).drop (a.length + b.length - 30) := by
  rw [← List.drop_append_of_le_length (Nat.sub_le _ _), List.drop_drop]
  congr 1
  omega

/-- The subject's window after a run of appends is the last 30 elements of
the initial window followed by the appended samples, provided the initial
window respects the capacity. -/
theorem appendAll_apply_eq {α : Type} (uid : String) (xs : List α) :
    ∀ store : String → List α, (store uid).length ≤ 30 →
      appendAll store uid xs uid
        = (store uid ++ xs).drop ((store uid).length + xs.length - 30) := by
  induction xs with
  | nil =>
    intro store h
    have hz : (store uid).length + ([] : List α).length - 30 = 0 := by
      simp only [List.length_nil, Nat.add_zero]
      omega
    simp only [appendAll, hz, List.append_nil, List.drop_zero]
  | cons x xs ih =>
    intro store h
    show appendAll (add_location_point store uid x).1 uid xs uid
        = (store uid ++ x :: xs).drop ((store uid).length + (x :: xs).length - 30)
    have hw : (add_location_point store uid x).1 uid
        = (store uid ++ [x]).drop ((store uid ++ [x]).length - 30) := by
      simp [add_location_point]
    have hlen : ((add_location_point store uid x).1 uid).length ≤ 30 := by
      rw [hw, List.length_drop]
      omega
    rw [ih _ hlen, hw, List.length_drop, drop_last_append]
    rw [List.append_assoc, List.singleton_append]
    congr 1
    simp only [List.length_append, List.length_cons, List.length_nil]
    omega

/-- C2: starting from the empty store, no subject's window ever exceeds 30
entries after any sequence of appends; after appending 35 samples exactly the
last 30 by insertion order remain (oldest dropped first); and each append
returns the full window currently stored for the subject. -/
theorem window_store_bounded {α : Type} (uid : String) (xs : List α) :
    (∀ k : String, ((appendAll emptyStore uid xs) k).length ≤ 30)
    ∧ (xs.length = 35 → appendAll emptyStore uid xs uid = xs.drop 5)
    ∧ (∀ (store : String → List α) (x : α),
        (add_location_point store uid x).2 = (add_location_point store uid x).1 uid) := by
  have hmain : appendAll (emptyStore (α := α)) uid xs uid
      = xs.drop (xs.length - 30) := by
    have h := appendAll_apply_eq uid xs emptyStore (by simp [emptyStore])
    simpa [emptyStore] using h
  refine ⟨?_, ?_, ?_⟩
  · intro k
    by_cases hk : k = uid
    · subst hk
      rw [hmain, List.length_drop]
      omega
    · rw [appendAll_apply_ne uid k hk xs]
      simp [emptyStore]
  · intro h35
    rw [hmain, h35]
  · intro store x
    simp [add_location_point]

/-- Witness for `window_store_bounded`: appending 35 numbered samples leaves
exactly the last 30. -/
theorem window_store_bounded_witness :
    appendAll emptyStore "u" (List.range 35) "u" = (List.range 35).drop 5 :=
  (window_store_bounded "u" (List.range 35)).2.1 (by simp)

/-- Each speed sample and each bearing sample of the extraction loop comes
from exactly one unskipped consecutive pair. -/
theorem speedsBearings_length_eq (K : GeoKernel) :
    ∀ l : List LocationPoint,
      (speedsBearings K l).1.length
          = ((consecPairs l).filter (fun pq => !(pairSkipped pq.1 pq.2))).length
      ∧ (speedsBearings K l).2.length
          = ((consecPairs l).filter (fun pq => !(pairSkipped pq.1 pq.2))).length
  | [] => ⟨rfl, rfl⟩
  | [_] => ⟨rfl, rfl⟩
  | p :: q :: rest => by
    have ih := speedsBearings_length_eq K (q :: rest)
    have hcp : consecPairs (p :: q :: rest) = (p, q) :: consecPairs (q :: rest) := rfl
    rcases hp : p.timestamp.parsed with _ | t1
    · have hred : speedsBearings K (p :: q :: rest) = speedsBearings K (q :: rest) := by
        simp [speedsBearings, hp]
      have hsk : pairSkipped p q = true := by simp [pairSkipped, hp]
      rw [hred, hcp, List.filter_cons]
      simp only [hsk, Bool.not_true, Bool.false_eq_true, if_false]
      exact ih
    · rcases hq : q.timestamp.parsed with _ | t2
      · have hred : speedsBearings K (p :: q :: rest) = speedsBearings K (q :: rest) := by
          simp [speedsBearings, hp, hq]
        have hsk : pairSkipped p q = true := by simp [pairSkipped, hp, hq]
        rw [hred, hcp, List.filter_cons]
        simp only [hsk, Bool.not_true, Bool.false_eq_true, if_false]
        exact ih
      · by_cases hdt : t2 - t1 ≤ 0
        · have hred : speedsBearings K (p :: q :: rest) = speedsBearings K (q :: rest) := by
            simp [speedsBearings, hp, hq, hdt]
          have hsk : pairSkipped p q = true := by simp [pairSkipped, hp, hq, hdt]
          rw [hred, hcp, List.filter_cons]
          simp only [hsk, Bool.not_true, Bool.false_eq_true, if_false]
          exact ih
        · have hred1 : (speedsBearings K (p :: q :: rest)).1
              = K.dist p q / (t2 - t1) :: (speedsBearings K (q :: rest)).1 := by
            simp [speedsBearings, hp, hq, hdt]
          have hred2 : (speedsBearings K (p :: q :: rest)).2
              = K.bear p q :: (speedsBearings K (q :: rest)).2 := by
            simp [speedsBearings, hp, hq, hdt]
          have hsk : pairSkipped p q = false := by simp [pairSkipped, hp, hq, hdt]
          rw [hcp, List.filter_cons]
          simp only [hsk, Bool.not_false, if_true]
          constructor
          · rw [hred1]
            simp [ih.1]
          · rw [hred2]
            simp [ih.2]

/-- C4 (amended): extract returns absent for every window of fewer than 2
points; consecutive pairs with non-positive time delta or unparseable
timestamps are silently skipped (each surviving pair contributes exactly one
speed and one bearing sample); if every pair is skipped, extract returns
absent — in particular a 2-point window with equal timestamps yields absent.
A 2-point window given in reversed timestamp order is re-sorted first and
scores like the in-order window (so it does not yield absent merely for
being reversed). -/
theorem extract_skip_policy (K : GeoKernel) :
    (∀ w : List LocationPoint, w.length < 2 → extract_features K w = none)
    ∧ (∀ l : List LocationPoint,
        (speedsBearings K l).1.length
            = ((consecPairs l).filter (fun pq => !(pairSkipped pq.1 pq.2))).length
        ∧ (speedsBearings K l).2.length
            = ((consecPairs l).filter (fun pq => !(pairSkipped pq.1 pq.2))).length)
    ∧ (∀ w : List LocationPoint, (speedsBearings K (sorted_window w)).1 = [] →
        extract_features K w = none)
    ∧ (∀ p q : LocationPoint, p.timestamp = q.timestamp →
        extract_features K [p, q] = none)
    ∧ (∀ p q : LocationPoint, p.timestamp.key < q.timestamp.key →
        extract_features K [q, p] = extract_features K [p, q]) := by
  have hshort : ∀ w : List LocationPoint, w.length < 2 → extract_features K w = none := by
    intro w h
    simp [extract_features, h]
  have hempty : ∀ w : List LocationPoint,
      (speedsBearings K (sorted_window w)).1 = [] → extract_features K w = none := by
    intro w hsp
    by_cases h2 : w.length < 2
    · exact hshort w h2
    · simp [extract_features, h2, hsp]
  refine ⟨hshort, speedsBearings_length_eq K, hempty, ?_, ?_⟩
  · intro p q h
    have hts : tsLe p q := by
      show p.timestamp.key ≤ q.timestamp.key
      rw [h]
    have hsw : sorted_window [p, q] = [p, q] := by
      simp [sorted_window, hts]
    have hsp : (speedsBearings K [p, q]).1 = [] := by
      rcases hq : q.timestamp.parsed with _ | t
      · simp [speedsBearings, h, hq]
      · simp [speedsBearings, h, hq]
    apply hempty
    rw [hsw]
    exact hsp
  · intro p q hlt
    have h1 : tsLe p q := le_of_lt hlt
    have h2 : ¬ tsLe q p := not_le.mpr hlt
    have e1 : sorted_window [q, p] = [p, q] := by
      simp [sorted_window, List.orderedInsert, h1, h2]
    have e2 : sorted_window [p, q] = [p, q] := by
      simp [sorted_window, List.orderedInsert, h1]
    simp [extract_features, e1, e2]

/-- Witness for `extract_skip_policy`: a 1-point window and an
equal-timestamp 2-point window are absent; a reversed 2-point window scores
like the in-order one. -/
theorem extract_skip_policy_witness :
    extract_features zeroKernel [pt0] = none
    ∧ extract_features zeroKernel [pt0, pt0] = none
    ∧ extract_features zeroKernel [pLate, pEarly]
        = extract_features zeroKernel [pEarly, pLate] := by
  have h := extract_skip_policy zeroKernel
  exact ⟨h.1 [pt0] (by norm_num), h.2.2.2.1 pt0 pt0 rfl,
    h.2.2.2.2 pEarly pLate (by norm_num [pEarly, pLate])⟩

/-- C4 counterexample: a 2-point window handed over in reversed timestamp
order (parseable, distinct instants) is re-sorted by extract; the pair then
has time delta 5 > 0 and extract returns a feature vector, not absent. -/
theorem extract_reversed_window_not_absent :
    pEarly.timestamp.key < pLate.timestamp.key
    ∧ pEarly.timestamp.parsed = some 5 ∧ pLate.timestamp.parsed = some 10
    ∧ extract_features zeroKernel [pLate, pEarly]
        = some ⟨0, 0, 0, 0, 0, 0, 0, 0, 0, 0, 0, 2, 0, 0⟩
    ∧ extract_features zeroKernel [pLate, pEarly] ≠ none := by
  have hval : extract_features zeroKernel [pLate, pEarly]
      = some ⟨0, 0, 0, 0, 0, 0, 0, 0, 0, 0, 0, 2, 0, 0⟩ := by
    norm_num [extract_features, sorted_window, speedsBearings, bearing_changes,
      accelerations, npMean, npStd, npMax, npMin, tsLe, pLate, pEarly,
      zeroKernel, List.orderedInsert]
  refine ⟨by norm_num [pEarly, pLate], rfl, rfl, hval, ?_⟩
  rw [hval]
  simp

/-- The acceleration series divides consecutive speed differences by the
fixed nominal 10-second interval, elementwise. -/
theorem accelerations_getD : ∀ (s : List ℚ) (i : Nat), i + 1 < s.length →
    (accelerations s).getD i 0 = (s.getD (i + 1) 0 - s.getD i 0) / 10
  | [], i, h => by simp at h
  | [_], i, h => by simp at h
  | _ :: b :: t, 0, _ => rfl
  | a :: b :: t, i + 1, h => by
    have h' : i + 1 < (b :: t).length := by simpa using h
    show ((b - a) / 10 :: accelerations (b :: t)).getD (i + 1) 0
        = ((a :: b :: t).getD (i + 2) 0 - (a :: b :: t).getD (i + 1) 0) / 10
    simp only [List.getD_cons_succ]
    exact accelerations_getD (b :: t) i h'

/-- C5: whenever extract produces a feature vector, the acceleration series
it aggregates satisfies acc[i] = (speed[i+1] - speed[i]) / 10.0, using the
fixed nominal 10-second interval rather than the observed time gap. -/
theorem acceleration_fixed_interval (K : GeoKernel) (w : List LocationPoint)
    (fv : FeatureVec) (h : extract_features K w = some fv) (i : Nat)
    (hi : i + 1 < (speedsBearings K (sorted_window w)).1.length) :
    (accelerations (speedsBearings K (sorted_window w)).1).getD i 0
      = ((speedsBearings K (sorted_window w)).1.getD (i + 1) 0
          - (speedsBearings K (sorted_window w)).1.getD i 0) / 10 :=
  accelerations_getD _ i hi

/-- Witness for `acceleration_fixed_interval` on the three-point window with
constant-distance kernel. -/
theorem acceleration_fixed_interval_witness :
    (accelerations (speedsBearings distKernel (sorted_window w3)).1).getD 0 0
      = ((speedsBearings distKernel (sorted_window w3)).1.getD 1 0
          - (speedsBearings distKernel (sorted_window w3)).1.getD 0 0) / 10 :=
  acceleration_fixed_interval distKernel w3 fv3
    (by
      norm_num [extract_features, sorted_window, speedsBearings, bearing_changes,
        accelerations, npMean, npStd, npMax, npMin, tsLe, w3, pt0, pt1, pt2,
        distKernel, fv3, bearing_difference, List.orderedInsert]
      simp)
    0
    (by
      norm_num [sorted_window, speedsBearings, tsLe, w3, pt0, pt1, pt2,
        distKernel, List.orderedInsert])

/-- C6 (amended): ending a session deletes all of the subject's anomaly
records and reports the deleted count to the caller, and it does so also when
the ephemeral session store is unavailable and raises (the except branch
repeats the deletion); a safety-score query afterwards returns 100 whenever
the reference-timezone hour lies outside the night window (during night
hours the flat 10-point night penalty still applies, giving 90). -/
theorem end_journey_clears_alerts (redisOk : Bool) (db : DB) (uid : String)
    (now : ℚ) (hourIST : Nat) :
    (∀ u : DjangoUser, findUser db ("user_" ++ uid) = some u →
        ((end_journey_post redisOk db uid).1.alerts.filter
            (fun a => a.user_id == u.pk)) = []
        ∧ (end_journey_post redisOk db uid).2
            = (db.alerts.filter (fun a => a.user_id == u.pk)).length)
    ∧ (5 ≤ hourIST → hourIST < 22 →
        (calculate_safety_score_by_user_id (end_journey_post redisOk db uid).1
            uid now hourIST).1 = 100) := by
  have hpost : end_journey_post redisOk db uid = clear_user_alerts db uid := by
    simp [end_journey_post]
  constructor
  · intro u hu
    rw [hpost]
    simp only [clear_user_alerts, hu]
    constructor
    · rw [List.filter_filter]
      rw [List.filter_eq_nil_iff]
      intro a _
      cases hcase : (a.user_id == u.pk) <;> simp [hcase]
    · trivial
  · intro h5 h22
    rw [hpost]
    have hnight : ¬(22 ≤ hourIST ∨ hourIST < 5) := by omega
    cases hu : findUser db ("user_" ++ uid) with
    | none =>
      have hclear : clear_user_alerts db uid = (db, 0) := by
        simp [clear_user_alerts, hu]
      rw [hclear]
      simp [calculate_safety_score_by_user_id, hu]
    | some u =>
      have hdb : (clear_user_alerts db uid).1
          = ⟨db.users, db.alerts.filter (fun a => !(a.user_id == u.pk))⟩ := by
        simp [clear_user_alerts, hu]
      rw [hdb]
      have hfind : findUser
          (⟨db.users, db.alerts.filter (fun a => !(a.user_id == u.pk))⟩ : DB)
          ("user_" ++ uid) = some u := hu
      have hrc : recentCount
          (⟨db.users, db.alerts.filter (fun a => !(a.user_id == u.pk))⟩ : DB)
          u now = 0 := by
        simp only [recentCount]
        rw [List.filter_filter, List.length_eq_zero, List.filter_eq_nil_iff]
        intro a _
        cases hcase : (a.user_id == u.pk) <;> simp [hcase]
      simp only [calculate_safety_score_by_user_id, hfind, hrc, night_penalty]
      simp [hnight]

/-- Witness for `end_journey_clears_alerts`: with the session store down, the
one alert of subject 3 is deleted and reported, and a daytime query then
scores 100. -/
theorem end_journey_clears_alerts_witness :
    ((end_journey_post false db6 "3").1.alerts.filter
        (fun a => a.user_id == (1 : Nat))) = []
    ∧ (end_journey_post false db6 "3").2 = 1
    ∧ (calculate_safety_score_by_user_id (end_journey_post false db6 "3").1
        "3" 1000 12).1 = 100 := by
  have h := end_journey_clears_alerts false db6 "3" 1000 12
  have h1 := h.1 ⟨1, "user_3"⟩ (by decide)
  exact ⟨h1.1, h1.2.trans (by decide), h.2 (by decide) (by decide)⟩

/-- C6 counterexample: after ending the session (store down, all records
deleted), a safety-score query at hour 23 returns 90 because of the night
penalty, not the claimed 100. -/
theorem end_journey_score_at_night :
    (end_journey_post false db6 "3").2 = 1
    ∧ (calculate_safety_score_by_user_id (end_journey_post false db6 "3").1
        "3" 1000 23).1 = 90
    ∧ (calculate_safety_score_by_user_id (end_journey_post false db6 "3").1
        "3" 1000 23).1 ≠ 100 := by decide

/-- C7: the reset endpoint filters the alert table on the user foreign-key
column with the raw request value, while a subject's records are keyed by the
username user_<id>; for subject 1 (whose user row has primary key 2 and one
record, so N = 1), the reset deletes nothing and returns 0, and the record
survives; the repository's own test input, a non-numeric subject id, makes
the filter raise. -/
theorem reset_anomalies_misses_subject :
    (subjectAlerts db7 "1").length = 1
    ∧ reset_anomalies_post db7 "1" = some (db7, 0)
    ∧ reset_anomalies_post db7 "test_anomaly_user" = none := by decide

end DemoSIH
